import Mathlib

/-!
# The `.mmap` command handlers of `cs_mmaps.cpp`

A shallow embedding of the five handlers of `mmaps_commandscript`
(`HandleMmapPathCommand`, `HandleMmapLocCommand`, `HandleMmapLoadedTilesCommand`,
`HandleMmapStatsCommand`, `HandleMmapTestArea`) and the properties proved about them.

Conventions of the embedding:

* a handler is a function from the state it reads (player, selection, navigation
  mesh, results of the external engines) to the list of effects it performs, in
  program order, and its `bool` return value;
* `PSendSysMessage(fmt, args...)` is the effect `sysMessage fmt [args]`: the format
  string is kept verbatim and the arguments are kept as values, so no `printf`
  rendering is modelled;
* `float` values are exact rationals, and the conversion of a `float` expression to
  `int32` is truncation toward zero (`truncToInt`);
* `uint32` accumulators are naturals reduced modulo `2 ^ 32` after every update.
-/

namespace MMaps

/-! ## Messages and effects -/

/-- One variadic argument handed to a message format. -/
inductive FmtArg where
  | str (s : String)
  | u32 (n : Nat)
  | i32 (z : Int)
  | usize (n : Nat)
  | flt (q : ℚ)
  deriving DecidableEq

/-- A position (`G3D::Vector3`, or three `float` coordinates). -/
structure Vector3 where
  x : ℚ
  y : ℚ
  z : ℚ
  deriving DecidableEq

/-- The creature entry the path command summons; its numeric value is not needed. -/
inductive CreatureEntry where
  | VISUAL_WAYPOINT
  deriving DecidableEq

/-- The summon kind the path command uses; its numeric value is not needed. -/
inductive TempSummonType where
  | TEMPSUMMON_TIMED_DESPAWN
  deriving DecidableEq

/-- A unit of the world (the selected target, a creature found by a grid search), as
far as the handlers read it. -/
structure WorldUnit where
  guid : Nat
  name : String
  deriving DecidableEq

/-- What a handler does to the outside world, one constructor per kind of call:
`PSendSysMessage`, `Player::SummonCreature`, and a `PathGenerator` built for `owner`,
configured with the two strategy flags and run by `CalculatePath(dest, forceDest)`. -/
inductive Effect where
  | sysMessage (fmt : String) (args : List FmtArg)
  | summonCreature (entry : CreatureEntry) (x y z ang : ℚ) (spwtype : TempSummonType)
      (despwtime : Nat)
  | calculatePath (owner : WorldUnit) (useStraightPath useRaycast : Bool) (dest : Vector3)
      (forceDest : Bool)
  deriving DecidableEq

/-- The test `s.starts_with(p)` of `std::string`: `p` is a prefix of `s`. -/
def starts_with (s p : String) : Bool :=
  p.toList.isPrefixOf s.toList

/-- Conversion of a `float` to `int32`: the fractional part is discarded, that is, the
numerator is divided by the denominator with the quotient rounded toward zero. -/
def truncToInt (q : ℚ) : Int :=
  Int.tdiv q.num q.den

/-- The update `uint32 += v` for an `int` or `uint32` operand `v`: addition modulo
`2 ^ 32`. -/
def addU32 (acc : Nat) (v : Int) : Nat :=
  (((acc : Int) + v) % 4294967296).toNat

/-! ## `HandleMmapPathCommand` -/

/-- The invoking player, as far as the handlers read it. -/
structure Player where
  name : String
  mapId : Nat
  instanceId : Nat
  position : Vector3
  isGameMaster : Bool

/-- What a `PathGenerator` holds after `CalculatePath`: the returned flag, the point
path, the path type and the three boundary positions. -/
structure PathResult where
  result : Bool
  path : List Vector3
  pathType : Nat
  startPosition : Vector3
  endPosition : Vector3
  actualEndPosition : Vector3

/-- The external path engine: what `PathGenerator path(owner)` holds once it has been
configured with the two strategy flags and `CalculatePath(x, y, z, forceDest)` has run. -/
abbrev PathEngine :=
  WorldUnit → (useStraightPath : Bool) → (useRaycast : Bool) → (dest : Vector3) →
    (forceDest : Bool) → PathResult

/-- Lines 83-97: the two strategy flags derived from the optional parameter. -/
def strategyFlags (param : Option String) : Bool × Bool :=
  match param with
  | none => (false, false)
  | some paramValue =>
    let useStraightPath := if starts_with paramValue "true" then true else false
    let useRaycast :=
      if starts_with paramValue "line" || starts_with paramValue "ray"
          || starts_with paramValue "raycast" then true else false
    (useStraightPath, useRaycast)

/-- Line 111: the name put in the `Building: %s` message. -/
def buildingName (useStraightPath useRaycast : Bool) : String :=
  if useStraightPath then "StraightPath" else if useRaycast then "Raycast" else "SmoothPath"

/-- Lines 125-126: one `SummonCreature` call per point of the path. -/
def summonWaypoints (pointPath : List Vector3) : List Effect :=
  pointPath.map fun i =>
    Effect.summonCreature .VISUAL_WAYPOINT i.x i.y i.z 0 .TEMPSUMMON_TIMED_DESPAWN 9000

/-- The state `HandleMmapPathCommand` reads. The session's player is dereferenced by
the first statement of the handler, so it is present; `navMeshLoaded` is whether
`GetNavMesh(mapId)` is non-null; `target` is `getSelectedUnit()`. -/
structure PathEnv where
  navMeshLoaded : Bool
  player : Player
  target : Option WorldUnit
  engine : PathEngine

/-- The handler `HandleMmapPathCommand(handler, param)`: the effects in program order and
the returned flag. -/
def HandleMmapPathCommand (env : PathEnv) (param : Option String) : List Effect × Bool :=
  if !env.navMeshLoaded then
    ([.sysMessage "NavMesh not loaded for current map." []], true)
  else
    match env.target with
    | none =>
      ([.sysMessage "mmap path:" [],
        .sysMessage "Invalid target/source selection." []], true)
    | some target =>
      let flags := strategyFlags param
      let useStraightPath := flags.1
      let useRaycast := flags.2
      let pos := env.player.position
      let path := env.engine target useStraightPath useRaycast pos false
      let pointPath := path.path
      let start := path.startPosition
      let endp := path.endPosition
      let actualEnd := path.actualEndPosition
      ([.sysMessage "mmap path:" [],
        .calculatePath target useStraightPath useRaycast pos false,
        .sysMessage "%s's path to %s:" [.str target.name, .str env.player.name],
        .sysMessage "Building: %s" [.str (buildingName useStraightPath useRaycast)],
        .sysMessage "Result: \x7b\x7d - Length: \x7b\x7d - Type: \x7b\x7d"
          [.str (if path.result then "true" else "false"), .usize pointPath.length,
           .u32 path.pathType],
        .sysMessage "StartPosition     (%.3f, %.3f, %.3f)"
          [.flt start.x, .flt start.y, .flt start.z],
        .sysMessage "EndPosition       (%.3f, %.3f, %.3f)"
          [.flt endp.x, .flt endp.y, .flt endp.z],
        .sysMessage "ActualEndPosition (%.3f, %.3f, %.3f)"
          [.flt actualEnd.x, .flt actualEnd.y, .flt actualEnd.z]]
        ++ (if !env.player.isGameMaster then
              [.sysMessage "Enable GM mode to see the path points." []]
            else [])
        ++ summonWaypoints pointPath,
       true)

/-! ## The navigation mesh, as the handlers read it -/

/-- Constants the file takes from headers outside these sources. `SIZE_OF_GRIDS` is
the extent of one grid cell, a positive number; `INVALID_POLYREF` is the polygon
reference that stands for "no polygon". -/
structure Constants where
  SIZE_OF_GRIDS : ℚ
  INVALID_POLYREF : Nat
  SIZE_OF_GRIDS_pos : 0 < SIZE_OF_GRIDS

/-- Modelled from the spec: the header of a mesh tile is declared outside these
sources; it carries the tile coordinate and the structural counters (all `int`). -/
structure dtMeshHeader where
  x : Int
  y : Int
  polyCount : Int
  vertCount : Int
  detailVertCount : Int
  detailTriCount : Int
  bvNodeCount : Int
  deriving DecidableEq

/-- Modelled from the spec: a mesh tile is declared outside these sources; a tile
slot that is not populated has no header. `dataSize` is an `int`. -/
structure dtMeshTile where
  header : Option dtMeshHeader
  dataSize : Int
  deriving DecidableEq

/-- Modelled from the spec: the status word of the query engine is declared outside
these sources; only the two tests the handlers apply to it are kept
(`dtStatusFailed`, `dtStatusSucceed`). -/
structure dtStatus where
  failed : Bool
  succeed : Bool
  deriving DecidableEq

/-- A polygon reference. -/
abbrev dtPolyRef := Nat

/-- Modelled from the spec: the mesh handle is declared outside these sources.
`orig` is `getParams()->orig`, `maxTiles` is `getMaxTiles()` (an `int`), `getTile i`
is the pointer `getTile(i)` (`none` for null) and `getTileAndPolyByRef ref` is the
returned status with the tile pointer it stores (`none` for null). -/
structure dtNavMesh where
  orig : Fin 3 → ℚ
  maxTiles : Int
  getTile : Int → Option dtMeshTile
  getTileAndPolyByRef : dtPolyRef → dtStatus × Option dtMeshTile

/-- Modelled from the spec: the query context is declared outside these sources.
`findNearestPoly center extents ref₀` is the returned status with the final value of
the out-parameter `nearestRef`, whose value before the call is `ref₀`. -/
structure dtNavMeshQuery where
  findNearestPoly : (center extents : List ℚ) → (nearestRef : dtPolyRef) → dtStatus × dtPolyRef

/-- The state the mesh-inspecting handlers read: the player, the mesh of the
player's map (`GetNavMesh`) and the query context of the player's map and instance
(`GetNavMeshQuery`), each `none` when null. -/
structure MeshEnv where
  player : Player
  navmesh : Option dtNavMesh
  navmeshquery : Option dtNavMeshQuery

/-! ## `HandleMmapLocCommand` -/

/-- The handler `HandleMmapLocCommand(handler)`: the effects in program order and
the returned flag. The flag is `none` when the handler does not return: it reads `tile->header->x`
of a resolved tile without a null test, so a resolved tile whose header is null stops
it after the `Calc` line. -/
def HandleMmapLocCommand (c : Constants) (env : MeshEnv) : List Effect × Option Bool :=
  let player := env.player
  let gx : Int := truncToInt (32 - player.position.x / c.SIZE_OF_GRIDS)
  let gy : Int := truncToInt (32 - player.position.y / c.SIZE_OF_GRIDS)
  let head : List Effect :=
    [.sysMessage "mmap tileloc:" [],
     .sysMessage "%03u%02i%02i.mmtile" [.u32 player.mapId, .i32 gx, .i32 gy],
     .sysMessage "gridloc [%i, %i]" [.i32 gy, .i32 gx]]
  match env.navmesh, env.navmeshquery with
  | some navmesh, some navmeshquery =>
    let min := navmesh.orig
    let x := player.position.x
    let y := player.position.y
    let z := player.position.z
    let location : List ℚ := [y, z, x]
    let extents : List ℚ := [3, 5, 3]
    let tilex : Int := truncToInt ((y - min 0) / c.SIZE_OF_GRIDS)
    let tiley : Int := truncToInt ((x - min 2) / c.SIZE_OF_GRIDS)
    let calcLine : List Effect := [.sysMessage "Calc   [%02i, %02i]" [.i32 tilex, .i32 tiley]]
    let found := navmeshquery.findNearestPoly location extents c.INVALID_POLYREF
    let polyRef := found.2
    if found.1.failed then
      (head ++ calcLine ++
        [.sysMessage "Dt     [??,??] (invalid poly, probably no tile loaded)" []], some true)
    else if polyRef = c.INVALID_POLYREF then
      (head ++ calcLine ++
        [.sysMessage "Dt     [??, ??] (invalid poly, probably no tile loaded)" []], some true)
    else
      let resolved := navmesh.getTileAndPolyByRef polyRef
      let noTile : List Effect := [.sysMessage "Dt     [??,??] (no tile loaded)" []]
      if resolved.1.succeed then
        match resolved.2 with
        | some tile =>
          match tile.header with
          | some header =>
            (head ++ calcLine ++
              [.sysMessage "Dt     [%02i,%02i]" [.i32 header.x, .i32 header.y]], some false)
          | none => (head ++ calcLine, none)
        | none => (head ++ calcLine ++ noTile, some true)
      else (head ++ calcLine ++ noTile, some true)
  | _, _ =>
    (head ++ [.sysMessage "NavMesh not loaded for current map." []], some true)

/-! ## The walk over the tile slots -/

/-- The slots visited by `for (int32 i = 0; i < navmesh->getMaxTiles(); ++i)`, each
with the pointer `navmesh->getTile(i)`, in the order of the loop. -/
def tileSlots (navmesh : dtNavMesh) : List (Option dtMeshTile) :=
  (List.range navmesh.maxTiles.toNat).map fun (i : Nat) => navmesh.getTile (i : Int)

/-- The header and data size of a slot the loops do not skip, that is, one that
passes `if (!tile || !tile->header) continue;`. -/
def populated (slot : Option dtMeshTile) : Option (dtMeshHeader × Int) :=
  match slot with
  | none => none
  | some tile =>
    match tile.header with
    | none => none
    | some header => some (header, tile.dataSize)

/-! ## `HandleMmapLoadedTilesCommand` -/

/-- The handler `HandleMmapLoadedTilesCommand(handler)`: the effects in program order and
the returned flag. -/
def HandleMmapLoadedTilesCommand (env : MeshEnv) : List Effect × Bool :=
  match env.navmesh, env.navmeshquery with
  | some navmesh, some _ =>
    ([Effect.sysMessage "mmap loadedtiles:" []] ++
      (tileSlots navmesh).filterMap fun slot =>
        match populated slot with
        | none => none
        | some (header, _) =>
          some (Effect.sysMessage "[%02i, %02i]" [.i32 header.x, .i32 header.y]),
     true)
  | _, _ => ([.sysMessage "NavMesh not loaded for current map." []], true)

/-! ## `HandleMmapStatsCommand` -/

/-- The seven `uint32` accumulators of the statistics walk. -/
structure TileStats where
  tileCount : Nat
  nodeCount : Nat
  polyCount : Nat
  vertCount : Nat
  triCount : Nat
  triVertCount : Nat
  dataSize : Nat
  deriving DecidableEq

/-- Lines 234-240: all accumulators start at zero. -/
def TileStats.zero : TileStats :=
  ⟨0, 0, 0, 0, 0, 0, 0⟩

/-- Lines 243-253: the body of the loop for one slot. -/
def statsStep (s : TileStats) (slot : Option dtMeshTile) : TileStats :=
  match populated slot with
  | none => s
  | some (header, dataSize) =>
    { tileCount := addU32 s.tileCount 1
      nodeCount := addU32 s.nodeCount header.bvNodeCount
      polyCount := addU32 s.polyCount header.polyCount
      vertCount := addU32 s.vertCount header.vertCount
      triCount := addU32 s.triCount header.detailTriCount
      triVertCount := addU32 s.triVertCount header.detailVertCount
      dataSize := addU32 s.dataSize dataSize }

/-- Lines 234-254 over a given sequence of slots. -/
def statsOfSlots (slots : List (Option dtMeshTile)) : TileStats :=
  slots.foldl statsStep TileStats.zero

/-- Lines 234-254: the totals accumulated over the slots of a mesh. -/
def statsWalk (navmesh : dtNavMesh) : TileStats :=
  statsOfSlots (tileSlots navmesh)

/-- Line 261: the figure `((float)dataSize / sizeof(unsigned char)) / 1048576`. -/
def megabytes (dataSize : Nat) : ℚ :=
  ((dataSize : ℚ) / 1) / 1048576

/-- The state `HandleMmapStatsCommand` reads: the two process-wide counts of the mesh
manager and the mesh of the player's map. -/
structure StatsEnv where
  loadedMapsCount : Nat
  loadedTilesCount : Nat
  navmesh : Option dtNavMesh

/-- The handler `HandleMmapStatsCommand(handler)`: the effects in program order and
the returned flag. -/
def HandleMmapStatsCommand (env : StatsEnv) : List Effect × Bool :=
  let head : List Effect :=
    [.sysMessage "mmap stats:" [],
     .sysMessage " %u maps loaded with %u tiles overall"
       [.u32 env.loadedMapsCount, .u32 env.loadedTilesCount]]
  match env.navmesh with
  | none => (head ++ [.sysMessage "NavMesh not loaded for current map." []], true)
  | some navmesh =>
    let s := statsWalk navmesh
    (head ++
      [.sysMessage "Navmesh stats:" [],
       .sysMessage " %u tiles loaded" [.u32 s.tileCount],
       .sysMessage " %u BVTree nodes" [.u32 s.nodeCount],
       .sysMessage " %u polygons (%u vertices)" [.u32 s.polyCount, .u32 s.vertCount],
       .sysMessage " %u triangles (%u vertices)" [.u32 s.triCount, .u32 s.triVertCount],
       .sysMessage " %.2f MB of data (not including pointers)" [.flt (megabytes s.dataSize)]],
     true)

/-! ## `HandleMmapTestArea` -/

/-- The state `HandleMmapTestArea` reads: the position of the player, the creatures
the grid search puts in `creatureList` for the radius, the path engine, the two
readings of `getMSTime()` and the external `getMSTimeDiff`. -/
structure TestAreaEnv where
  position : Vector3
  creaturesInRange : (radius : ℚ) → List WorldUnit
  engine : PathEngine
  uStartTime : Nat
  uEndTime : Nat
  getMSTimeDiff : Nat → Nat → Nat

/-- Lines 286-291: one `PathGenerator` per creature, its result dropped, and the
`uint32` counter `paths` incremented once per creature. -/
def testAreaLoop (engine : PathEngine) (dest : Vector3) :
    List WorldUnit → List Effect × Nat → List Effect × Nat
  | [], acc => acc
  | itr :: rest, (calls, paths) =>
    let _path := engine itr false false dest false
    testAreaLoop engine dest rest
      (calls ++ [Effect.calculatePath itr false false dest false], addU32 paths 1)

/-- The handler `HandleMmapTestArea(handler)`: the effects in program order and
the returned flag. -/
def HandleMmapTestArea (env : TestAreaEnv) : List Effect × Bool :=
  let radius : ℚ := 40
  let creatureList := env.creaturesInRange radius
  if !creatureList.isEmpty then
    let looped := testAreaLoop env.engine env.position creatureList ([], 0)
    let paths := looped.2
    let uPathLoadTime := env.getMSTimeDiff env.uStartTime env.uEndTime
    ([Effect.sysMessage "Found \x7b\x7d Creatures." [.usize creatureList.length]]
      ++ looped.1
      ++ [.sysMessage "Generated %i paths in %i ms" [.u32 paths, .u32 uPathLoadTime]],
     true)
  else
    ([.sysMessage "No creatures in %f yard range." [.flt radius]], true)

/-! ## Vocabulary of the properties -/

/-- The text `s` begins with the text `p`. -/
def BeginsWith (s p : String) : Prop :=
  ∃ rest : String, s = p ++ rest

/-- The argument lists of the messages of `out` sent with the format `fmt`, in order. -/
def messagesWithFormat (fmt : String) (out : List Effect) : List (List FmtArg) :=
  out.filterMap fun e =>
    match e with
    | .sysMessage f args => if f = fmt then some args else none
    | _ => none

/-- The path computations among the effects `out`, in order. -/
def pathComputations (out : List Effect) : List Effect :=
  out.filter fun e =>
    match e with
    | .calculatePath _ _ _ _ _ => true
    | _ => false

/-- The messages of `out` whose format begins with "Dt" (the lines of the `loc`
command that report the tile found through the mesh), each with its arguments. -/
def dtLines (out : List Effect) : List (String × List FmtArg) :=
  out.filterMap fun e =>
    match e with
    | .sysMessage f args => if starts_with f "Dt" then some (f, args) else none
    | _ => none

/-- The tiles of the slots in `[0, getMaxTiles())` that have both a tile and a header,
in slot order. -/
def populatedTiles (navmesh : dtNavMesh) : List dtMeshTile :=
  (List.range navmesh.maxTiles.toNat).filterMap fun (i : Nat) =>
    match navmesh.getTile (i : Int) with
    | some tile => if tile.header.isSome then some tile else none
    | none => none

/-- A field of the header of a tile (0 for a tile without header). -/
def headerField (field : dtMeshHeader → Int) (tile : dtMeshTile) : Int :=
  match tile.header with
  | some header => field header
  | none => 0

/-- The value of a `uint32` that received the summands `vs`, starting from zero. -/
def sumU32 (vs : List Int) : Nat :=
  (vs.sum % 4294967296).toNat

/-- A mesh whose slots are the given sequence: slot `i` holds `slots[i]`. -/
def navMeshOfSlots (slots : List (Option dtMeshTile)) : dtNavMesh :=
  { orig := fun _ => 0,
    maxTiles := (slots.length : Int),
    getTile := fun i => if 0 ≤ i then (slots.get? i.toNat).join else none,
    getTileAndPolyByRef := fun _ => (⟨true, false⟩, none) }

/-! ## Sample inputs -/

/-- A player standing at `(100, 200, 50)` on map 0, not in game-master mode. -/
def samplePlayer : Player :=
  { name := "Operator", mapId := 0, instanceId := 0, position := ⟨100, 200, 50⟩,
    isGameMaster := false }

/-- A path engine that fails and still returns a path of two points. -/
def sampleEngine : PathEngine :=
  fun _ _ _ dest _ =>
    { result := false, path := [⟨1, 2, 3⟩, dest], pathType := 8,
      startPosition := ⟨1, 2, 3⟩, endPosition := dest, actualEndPosition := ⟨1, 2, 3⟩ }

/-- A loaded mesh, a selected target, a player out of game-master mode. -/
def samplePathEnv : PathEnv :=
  { navMeshLoaded := true, player := samplePlayer, target := some ⟨7, "Wolf"⟩,
    engine := sampleEngine }

/-- The constants of the samples: a grid cell of `1600 / 3` (about 533.33) units and
the polygon reference 0 for "no polygon". -/
def sampleConstants : Constants :=
  { SIZE_OF_GRIDS := 1600 / 3, INVALID_POLYREF := 0, SIZE_OF_GRIDS_pos := by norm_num }

/-- A populated tile at tile coordinate `(15, 20)`. -/
def sampleTile : dtMeshTile :=
  { header := some { x := 15, y := 20, polyCount := 4, vertCount := 9, detailVertCount := 2,
                     detailTriCount := 6, bvNodeCount := 3 },
    dataSize := 2048 }

/-- A mesh with origin `(300, 300, 400)` and three slots, the middle one populated;
every polygon reference resolves to that tile. -/
def sampleNavMesh : dtNavMesh :=
  { orig := fun i => if i = 0 then 300 else if i = 1 then 300 else 400,
    maxTiles := 3,
    getTile := fun i => if i = 1 then some sampleTile else if i = 2 then some ⟨none, 0⟩ else none,
    getTileAndPolyByRef := fun _ => (⟨false, true⟩, some sampleTile) }

/-- A query context whose nearest-polygon query succeeds with the reference 77. -/
def sampleQuery : dtNavMeshQuery :=
  { findNearestPoly := fun _ _ _ => (⟨false, true⟩, 77) }

/-- The sample player on a map whose mesh and query context are loaded. -/
def sampleMeshEnv : MeshEnv :=
  { player := samplePlayer, navmesh := some sampleNavMesh, navmeshquery := some sampleQuery }

/-- The sample player on a map with no mesh loaded. -/
def sampleNoMeshEnv : MeshEnv :=
  { player := samplePlayer, navmesh := none, navmeshquery := none }

/-- A second populated tile, with counters near the top of the `uint32` range. -/
def sampleBigTile : dtMeshTile :=
  { header := some { x := 16, y := 20, polyCount := 4294967295, vertCount := 1,
                     detailVertCount := 0, detailTriCount := 7, bvNodeCount := 5 },
    dataSize := 1024 }

/-- A slot sequence: an absent slot, two populated tiles and a header-less tile. -/
def sampleSlots : List (Option dtMeshTile) :=
  [none, some sampleTile, some sampleBigTile, some ⟨none, 512⟩]

/-- The slots of `sampleSlots` in another order. -/
def sampleSlotsPermuted : List (Option dtMeshTile) :=
  [some sampleBigTile, some ⟨none, 512⟩, none, some sampleTile]

/-- Two creatures in range, a path engine that fails for each of them, and clock
readings 1000 and 1007. -/
def sampleTestAreaEnv : TestAreaEnv :=
  { position := ⟨100, 200, 50⟩,
    creaturesInRange := fun _ => [⟨1, "Wolf"⟩, ⟨2, "Boar"⟩],
    engine := sampleEngine,
    uStartTime := 1000,
    uEndTime := 1007,
    getMSTimeDiff := fun oldMSTime newMSTime => newMSTime - oldMSTime }

/-! ## Strategy selection -/

theorem starts_with_iff (s p : String) : starts_with s p = true ↔ BeginsWith s p := by
  unfold starts_with BeginsWith
  rw [List.isPrefixOf_iff_prefix]
  constructor
  · rintro ⟨t, ht⟩
    refine ⟨⟨t⟩, String.ext ?_⟩
    rw [String.data_append]
    exact ht.symm
  · rintro ⟨rest, rfl⟩
    exact ⟨rest.data, (String.data_append p rest).symm⟩

theorem messagesWithFormat_append (fmt : String) (a b : List Effect) :
    messagesWithFormat fmt (a ++ b) = messagesWithFormat fmt a ++ messagesWithFormat fmt b := by
  simp [messagesWithFormat, List.filterMap_append]

theorem messagesWithFormat_summonWaypoints (fmt : String) (l : List Vector3) :
    messagesWithFormat fmt (summonWaypoints l) = [] := by
  induction l with
  | nil => rfl
  | cons a l ih =>
    simp [messagesWithFormat, summonWaypoints]

/-- The `Building` line of a run that reaches it, for given flags. -/
theorem building_line (env : PathEnv) (target : WorldUnit) (param : Option String)
    (hmesh : env.navMeshLoaded = true) (htarget : env.target = some target) :
    messagesWithFormat "Building: %s" (HandleMmapPathCommand env param).1
      = [[.str (buildingName (strategyFlags param).1 (strategyFlags param).2)]] := by
  simp only [HandleMmapPathCommand, hmesh, htarget, Bool.not_true, Bool.false_eq_true,
    if_false]
  rw [messagesWithFormat_append, messagesWithFormat_append,
    messagesWithFormat_summonWaypoints]
  cases env.player.isGameMaster <;> simp [messagesWithFormat]

theorem starts_with_eq_false_iff (s p : String) :
    starts_with s p = false ↔ ¬ BeginsWith s p := by
  rw [← starts_with_iff, Bool.not_eq_true]

/-- C1: when the path command reaches the path computation (mesh loaded, a target
selected), the single `Building` line names `StraightPath` if the hint begins with
"true"; otherwise `Raycast` if the hint begins with "line", "ray" or "raycast";
otherwise, and for an absent hint, `SmoothPath`. -/
theorem path_reports_strategy_by_prefix (env : PathEnv) (target : WorldUnit)
    (param : Option String)
    (hmesh : env.navMeshLoaded = true) (htarget : env.target = some target) :
    ∃ name : String,
      messagesWithFormat "Building: %s" (HandleMmapPathCommand env param).1
        = [[.str name]] ∧
      (∀ hint, param = some hint → BeginsWith hint "true" → name = "StraightPath") ∧
      (∀ hint, param = some hint → ¬ BeginsWith hint "true" →
        (BeginsWith hint "line" ∨ BeginsWith hint "ray" ∨ BeginsWith hint "raycast") →
        name = "Raycast") ∧
      (∀ hint, param = some hint → ¬ BeginsWith hint "true" → ¬ BeginsWith hint "line" →
        ¬ BeginsWith hint "ray" → ¬ BeginsWith hint "raycast" → name = "SmoothPath") ∧
      (param = none → name = "SmoothPath") := by
  refine ⟨_, building_line env target param hmesh htarget, ?_, ?_, ?_, ?_⟩
  · intro hint hp ht
    subst hp
    simp [strategyFlags, buildingName, (starts_with_iff _ _).2 ht]
  · intro hint hp ht hr
    subst hp
    have h1 := (starts_with_eq_false_iff _ _).2 ht
    have h2 : (starts_with hint "line" || starts_with hint "ray"
        || starts_with hint "raycast") = true := by
      rcases hr with h | h | h <;> simp [(starts_with_iff _ _).2 h]
    simp [strategyFlags, buildingName, h1, h2]
  · intro hint hp ht hl hr hc
    subst hp
    simp [strategyFlags, buildingName, (starts_with_eq_false_iff _ _).2 ht,
      (starts_with_eq_false_iff _ _).2 hl, (starts_with_eq_false_iff _ _).2 hr,
      (starts_with_eq_false_iff _ _).2 hc]
  · intro hp
    subst hp
    simp [strategyFlags, buildingName]

/-- C1 at the hint "trueray" on the sample state: the `Building` line names
`StraightPath`. -/
theorem path_reports_strategy_by_prefix_witness :
    samplePathEnv.navMeshLoaded = true ∧ samplePathEnv.target = some ⟨7, "Wolf"⟩ ∧
    messagesWithFormat "Building: %s" (HandleMmapPathCommand samplePathEnv (some "trueray")).1
      = [[.str "StraightPath"]] := by
  refine ⟨rfl, rfl, ?_⟩
  obtain ⟨name, hline, htrue, _⟩ :=
    path_reports_strategy_by_prefix samplePathEnv ⟨7, "Wolf"⟩ (some "trueray") rfl rfl
  rw [hline, htrue "trueray" rfl ⟨"ray", by decide⟩]

/-- Which formats of the `loc` command begin with "Dt". -/
theorem loc_formats_begin_with_dt :
    starts_with "mmap tileloc:" "Dt" = false ∧
    starts_with "%03u%02i%02i.mmtile" "Dt" = false ∧
    starts_with "gridloc [%i, %i]" "Dt" = false ∧
    starts_with "NavMesh not loaded for current map." "Dt" = false ∧
    starts_with "Calc   [%02i, %02i]" "Dt" = false ∧
    starts_with "Dt     [??,??] (invalid poly, probably no tile loaded)" "Dt" = true ∧
    starts_with "Dt     [??, ??] (invalid poly, probably no tile loaded)" "Dt" = true ∧
    starts_with "Dt     [??,??] (no tile loaded)" "Dt" = true ∧
    starts_with "Dt     [%02i,%02i]" "Dt" = true := by
  decide

/-- C7: with the mesh and the query context loaded, the `loc` command prints the
numeric `Dt` line for `(a, b)` exactly when the nearest-polygon query does not fail,
its polygon reference is not `INVALID_POLYREF`, and the tile resolution succeeds with a
non-null tile whose header carries `(a, b)`; in every other case of the query and the
resolution the only `Dt` line is a placeholder beginning `Dt     [??` with no
argument, and no numeric line is printed. -/
theorem loc_dt_line (c : Constants) (env : MeshEnv) (nav : dtNavMesh) (q : dtNavMeshQuery)
    (found : dtStatus × dtPolyRef) (resolved : dtStatus × Option dtMeshTile)
    (hn : env.navmesh = some nav) (hq : env.navmeshquery = some q)
    (hfound : q.findNearestPoly [env.player.position.y, env.player.position.z,
      env.player.position.x] [3, 5, 3] c.INVALID_POLYREF = found)
    (hresolved : nav.getTileAndPolyByRef found.2 = resolved) :
    (∀ a b : Int,
      dtLines (HandleMmapLocCommand c env).1 = [("Dt     [%02i,%02i]", [.i32 a, .i32 b])] ↔
        (found.1.failed = false ∧ found.2 ≠ c.INVALID_POLYREF ∧ resolved.1.succeed = true ∧
          ∃ tile header, resolved.2 = some tile ∧ tile.header = some header ∧
            header.x = a ∧ header.y = b)) ∧
    (¬ (found.1.failed = false ∧ found.2 ≠ c.INVALID_POLYREF ∧ resolved.1.succeed = true ∧
          ∃ tile, resolved.2 = some tile) →
      messagesWithFormat "Dt     [%02i,%02i]" (HandleMmapLocCommand c env).1 = [] ∧
      ∃ fmt, dtLines (HandleMmapLocCommand c env).1 = [(fmt, [])] ∧
        BeginsWith fmt "Dt     [??") := by
  obtain ⟨s1, s2, s3, -, s5, s6, s7, s8, s9⟩ := loc_formats_begin_with_dt
  simp only [HandleMmapLocCommand, hn, hq, hfound, hresolved]
  obtain ⟨⟨failed, fsucc⟩, ref⟩ := found
  obtain ⟨⟨rfailed, rsucc⟩, tile⟩ := resolved
  cases failed
  · by_cases href : ref = c.INVALID_POLYREF
    · simp [href, dtLines, messagesWithFormat, s1, s2, s3, s5, s7]
      exact (starts_with_iff _ _).1 (by decide)
    · cases rsucc
      · simp [href, dtLines, messagesWithFormat, s1, s2, s3, s5, s8]
        exact (starts_with_iff _ _).1 (by decide)
      · cases tile with
        | none =>
          simp [href, dtLines, messagesWithFormat, s1, s2, s3, s5, s8]
          exact (starts_with_iff _ _).1 (by decide)
        | some t =>
          cases hh : t.header with
          | none => simp [href, hh, dtLines, s1, s2, s3, s5]
          | some h => simp [href, hh, dtLines, s1, s2, s3, s5, s9]
  · simp [dtLines, messagesWithFormat, s1, s2, s3, s5, s6]
    exact (starts_with_iff _ _).1 (by decide)

/-- C7 on the sample state, whose resolved tile has the header `(15, 20)`: the only
`Dt` line is the numeric one for 15 and 20. -/
theorem loc_dt_line_witness :
    sampleMeshEnv.navmesh = some sampleNavMesh ∧
    sampleMeshEnv.navmeshquery = some sampleQuery ∧
    dtLines (HandleMmapLocCommand sampleConstants sampleMeshEnv).1
      = [("Dt     [%02i,%02i]", [.i32 15, .i32 20])] :=
  ⟨rfl, rfl,
    ((loc_dt_line sampleConstants sampleMeshEnv sampleNavMesh sampleQuery
        (⟨false, true⟩, 77) (⟨false, true⟩, some sampleTile) rfl rfl rfl rfl).1 15 20).2
      ⟨rfl, by decide, rfl, sampleTile, _, rfl, rfl, rfl, rfl⟩⟩

/-- C10: the `loc` command returns `false` exactly when the mesh and the query context
are loaded, the nearest-polygon query does not fail, its polygon reference is not
`INVALID_POLYREF` and the tile resolution succeeds with a non-null tile (whose header
is read), which is exactly when the numeric `Dt` line is printed; when one of these
conditions fails it returns `true`. The short-circuit paths of the `path`,
`loadedtiles` and `stats` commands return `true`. -/
theorem loc_return_value (c : Constants) (env : MeshEnv) (penv : PathEnv)
    (param : Option String) (senv : StatsEnv) :
    (∀ nav q found resolved, env.navmesh = some nav → env.navmeshquery = some q →
      q.findNearestPoly [env.player.position.y, env.player.position.z,
        env.player.position.x] [3, 5, 3] c.INVALID_POLYREF = found →
      nav.getTileAndPolyByRef found.2 = resolved →
        ((HandleMmapLocCommand c env).2 = some false ↔
          (found.1.failed = false ∧ found.2 ≠ c.INVALID_POLYREF ∧
            resolved.1.succeed = true ∧
            ∃ tile header, resolved.2 = some tile ∧ tile.header = some header)) ∧
        (¬ (found.1.failed = false ∧ found.2 ≠ c.INVALID_POLYREF ∧
            resolved.1.succeed = true ∧ ∃ tile, resolved.2 = some tile) →
          (HandleMmapLocCommand c env).2 = some true)) ∧
    ((env.navmesh = none ∨ env.navmeshquery = none) →
      (HandleMmapLocCommand c env).2 = some true) ∧
    ((HandleMmapLocCommand c env).2 = some false ↔
      ∃ a b : Int, dtLines (HandleMmapLocCommand c env).1
        = [("Dt     [%02i,%02i]", [.i32 a, .i32 b])]) ∧
    (penv.navMeshLoaded = false →
      HandleMmapPathCommand penv param
        = ([.sysMessage "NavMesh not loaded for current map." []], true)) ∧
    (penv.navMeshLoaded = true → penv.target = none →
      HandleMmapPathCommand penv param
        = ([.sysMessage "mmap path:" [],
            .sysMessage "Invalid target/source selection." []], true)) ∧
    ((env.navmesh = none ∨ env.navmeshquery = none) →
      HandleMmapLoadedTilesCommand env
        = ([.sysMessage "NavMesh not loaded for current map." []], true)) ∧
    (senv.navmesh = none →
      HandleMmapStatsCommand senv
        = ([.sysMessage "mmap stats:" [],
            .sysMessage " %u maps loaded with %u tiles overall"
              [.u32 senv.loadedMapsCount, .u32 senv.loadedTilesCount],
            .sysMessage "NavMesh not loaded for current map." []], true)) := by
  obtain ⟨s1, s2, s3, s4, s5, s6, s7, s8, s9⟩ := loc_formats_begin_with_dt
  refine ⟨?_, ?_, ?_, ?_, ?_, ?_, ?_⟩
  · intro nav q found resolved hn hq hfound hresolved
    simp only [HandleMmapLocCommand, hn, hq, hfound, hresolved]
    obtain ⟨⟨failed, fsucc⟩, ref⟩ := found
    obtain ⟨⟨rfailed, rsucc⟩, tile⟩ := resolved
    cases failed
    · by_cases href : ref = c.INVALID_POLYREF
      · simp [href]
      · cases rsucc
        · simp [href]
        · cases tile with
          | none => simp [href]
          | some t => cases hh : t.header <;> simp [href, hh]
    · simp
  · rintro (h | h)
    · simp [HandleMmapLocCommand, h]
    · cases hn : env.navmesh <;> simp [HandleMmapLocCommand, h]
  · simp only [HandleMmapLocCommand]
    repeat' split
    all_goals simp [dtLines, s1, s2, s3, s4, s5, s6, s7, s8, s9]
  · intro h
    simp [HandleMmapPathCommand, h]
  · intro h ht
    simp [HandleMmapPathCommand, h, ht]
  · rintro (h | h)
    · simp [HandleMmapLoadedTilesCommand, h]
    · cases hn : env.navmesh <;> simp [HandleMmapLoadedTilesCommand, h]
  · intro h
    simp [HandleMmapStatsCommand, h]

/-- C10 on the sample states: with the mesh loaded and the tile resolved the `loc`
command returns `false`; with no mesh it returns `true`. -/
theorem loc_return_value_witness :
    (HandleMmapLocCommand sampleConstants sampleMeshEnv).2 = some false ∧
    (HandleMmapLocCommand sampleConstants sampleNoMeshEnv).2 = some true :=
  ⟨((loc_return_value sampleConstants sampleMeshEnv samplePathEnv none ⟨0, 0, none⟩).1
        sampleNavMesh sampleQuery (⟨false, true⟩, 77) (⟨false, true⟩, some sampleTile)
        rfl rfl rfl rfl).1.2 ⟨rfl, by decide, rfl, sampleTile, _, rfl, rfl⟩,
   (loc_return_value sampleConstants sampleNoMeshEnv samplePathEnv none ⟨0, 0, none⟩).2.1
      (Or.inl rfl)⟩

/-! ## The statistics walk -/

theorem addU32_addU32 (a : Nat) (x y : Int) : addU32 (addU32 a x) y = addU32 a (x + y) := by
  unfold addU32
  omega

theorem addU32_zero_of_lt {a : Nat} (h : a < 4294967296) : addU32 a 0 = a := by
  unfold addU32
  omega

theorem addU32_lt (a : Nat) (x : Int) : addU32 a x < 4294967296 := by
  unfold addU32
  omega

theorem statsStep_comm (s : TileStats) (a b : Option dtMeshTile) :
    statsStep (statsStep s a) b = statsStep (statsStep s b) a := by
  unfold statsStep
  cases populated a <;> cases populated b <;>
    simp only [addU32_addU32, add_comm]

theorem statsOfSlots_perm {slots₁ slots₂ : List (Option dtMeshTile)}
    (h : slots₁.Perm slots₂) : statsOfSlots slots₁ = statsOfSlots slots₂ := by
  haveI : RightCommutative statsStep := ⟨statsStep_comm⟩
  exact h.foldl_eq TileStats.zero

theorem tileSlots_navMeshOfSlots (slots : List (Option dtMeshTile)) :
    tileSlots (navMeshOfSlots slots) = slots := by
  unfold tileSlots navMeshOfSlots
  apply List.ext_getElem
  · simp
  · intro n h₁ h₂
    simp [List.getElem?_eq_getElem h₂]

/-- C5: the totals of the statistics walk do not depend on the order of the tile
slots: two slot sequences that are permutations of each other give the same seven
totals, for every two meshes that hold them, and the `stats` command then sends the
same messages. -/
theorem stats_order_independent (slots₁ slots₂ : List (Option dtMeshTile))
    (h : slots₁.Perm slots₂) :
    statsOfSlots slots₁ = statsOfSlots slots₂ ∧
    statsWalk (navMeshOfSlots slots₁) = statsWalk (navMeshOfSlots slots₂) ∧
    ∀ nav₁ nav₂ : dtNavMesh, tileSlots nav₁ = slots₁ → tileSlots nav₂ = slots₂ →
      statsWalk nav₁ = statsWalk nav₂ ∧
      ∀ maps tiles : Nat,
        HandleMmapStatsCommand ⟨maps, tiles, some nav₁⟩
          = HandleMmapStatsCommand ⟨maps, tiles, some nav₂⟩ := by
  have key : ∀ nav₁ nav₂ : dtNavMesh, tileSlots nav₁ = slots₁ → tileSlots nav₂ = slots₂ →
      statsWalk nav₁ = statsWalk nav₂ := by
    intro nav₁ nav₂ h₁ h₂
    unfold statsWalk
    rw [h₁, h₂]
    exact statsOfSlots_perm h
  refine ⟨statsOfSlots_perm h, key _ _ (tileSlots_navMeshOfSlots _)
    (tileSlots_navMeshOfSlots _), ?_⟩
  intro nav₁ nav₂ h₁ h₂
  refine ⟨key nav₁ nav₂ h₁ h₂, ?_⟩
  intro maps tiles
  simp only [HandleMmapStatsCommand, key nav₁ nav₂ h₁ h₂]

/-- C5 on the sample slots and their rearrangement. -/
theorem stats_order_independent_witness :
    sampleSlots.Perm sampleSlotsPermuted ∧
    statsWalk (navMeshOfSlots sampleSlots) = statsWalk (navMeshOfSlots sampleSlotsPermuted) :=
  ⟨by decide, (stats_order_independent sampleSlots sampleSlotsPermuted (by decide)).2.1⟩

/-- The populated tiles among a sequence of slots. -/
theorem populatedTiles_eq (navmesh : dtNavMesh) :
    populatedTiles navmesh
      = (tileSlots navmesh).filterMap (fun slot =>
          match slot with
          | some tile => if tile.header.isSome then some tile else none
          | none => none) := by
  unfold populatedTiles tileSlots
  rw [List.filterMap_map]
  rfl

/-- One accumulator of the walk: it ends at the sum, modulo `2 ^ 32`, of what the
populated slots add to it. -/
theorem foldl_statsStep (f : dtMeshHeader → Int → Int) (g : dtMeshTile → Int)
    (proj : TileStats → Nat)
    (hstep : ∀ s header dataSize tile, tile.header = some header →
      tile.dataSize = dataSize →
      proj (statsStep s (some tile)) = addU32 (proj s) (f header dataSize))
    (hg : ∀ tile header, tile.header = some header → g tile = f header tile.dataSize)
    (slots : List (Option dtMeshTile)) :
    ∀ s : TileStats, proj s < 4294967296 →
      proj (slots.foldl statsStep s)
        = addU32 (proj s) (((slots.filterMap (fun slot =>
            match slot with
            | some tile => if tile.header.isSome then some tile else none
            | none => none)).map g).sum) := by
  induction slots with
  | nil =>
    intro s hs
    simpa using (addU32_zero_of_lt hs).symm
  | cons slot rest ih =>
    intro s hs
    rw [List.foldl_cons]
    cases slot with
    | none =>
      have h0 : statsStep s none = s := rfl
      rw [h0, ih s hs]
      simp
    | some tile =>
      cases hh : tile.header with
      | none =>
        have h0 : statsStep s (some tile) = s := by
          simp [statsStep, populated, hh]
        rw [h0, ih s hs]
        simp [hh]
      | some header =>
        have h1 := hstep s header tile.dataSize tile hh rfl
        rw [ih _ (h1 ▸ addU32_lt _ _), h1, addU32_addU32]
        simp [hh, hg tile header hh]

/-- C6: for a loaded mesh (whose slot count is an `int`, so at most `2 ^ 31 - 1`), the
walk ends with `tileCount` equal to the number of slots that have a tile and a header,
and with each other total equal to the sum modulo `2 ^ 32` of the corresponding
header field, or of the tile data size, over exactly those slots; the `stats` command
reports these totals. With no such slot all seven totals are zero and the reported
data size is 0 MB. -/
theorem stats_totals (navmesh : dtNavMesh) (maps tiles : Nat)
    (hmax : navmesh.maxTiles ≤ 2147483647) :
    (statsWalk navmesh).tileCount = (populatedTiles navmesh).length ∧
    (statsWalk navmesh).nodeCount
      = sumU32 ((populatedTiles navmesh).map (headerField fun h => h.bvNodeCount)) ∧
    (statsWalk navmesh).polyCount
      = sumU32 ((populatedTiles navmesh).map (headerField fun h => h.polyCount)) ∧
    (statsWalk navmesh).vertCount
      = sumU32 ((populatedTiles navmesh).map (headerField fun h => h.vertCount)) ∧
    (statsWalk navmesh).triCount
      = sumU32 ((populatedTiles navmesh).map (headerField fun h => h.detailTriCount)) ∧
    (statsWalk navmesh).triVertCount
      = sumU32 ((populatedTiles navmesh).map (headerField fun h => h.detailVertCount)) ∧
    (statsWalk navmesh).dataSize
      = sumU32 ((populatedTiles navmesh).map fun tile => tile.dataSize) ∧
    HandleMmapStatsCommand ⟨maps, tiles, some navmesh⟩
      = ([.sysMessage "mmap stats:" [],
          .sysMessage " %u maps loaded with %u tiles overall" [.u32 maps, .u32 tiles],
          .sysMessage "Navmesh stats:" [],
          .sysMessage " %u tiles loaded" [.u32 (statsWalk navmesh).tileCount],
          .sysMessage " %u BVTree nodes" [.u32 (statsWalk navmesh).nodeCount],
          .sysMessage " %u polygons (%u vertices)"
            [.u32 (statsWalk navmesh).polyCount, .u32 (statsWalk navmesh).vertCount],
          .sysMessage " %u triangles (%u vertices)"
            [.u32 (statsWalk navmesh).triCount, .u32 (statsWalk navmesh).triVertCount],
          .sysMessage " %.2f MB of data (not including pointers)"
            [.flt (((statsWalk navmesh).dataSize : ℚ) / 1048576)]], true) ∧
    (populatedTiles navmesh = [] →
      statsWalk navmesh = ⟨0, 0, 0, 0, 0, 0, 0⟩ ∧
      messagesWithFormat " %.2f MB of data (not including pointers)"
          (HandleMmapStatsCommand ⟨maps, tiles, some navmesh⟩).1 = [[.flt 0]]) := by
  have hfold : ∀ (f : dtMeshHeader → Int → Int) (g : dtMeshTile → Int)
      (proj : TileStats → Nat),
      (∀ s header dataSize tile, tile.header = some header → tile.dataSize = dataSize →
        proj (statsStep s (some tile)) = addU32 (proj s) (f header dataSize)) →
      (∀ tile header, tile.header = some header → g tile = f header tile.dataSize) →
      proj TileStats.zero = 0 →
      proj (statsWalk navmesh) = sumU32 ((populatedTiles navmesh).map g) := by
    intro f g proj hstep hg hzero
    unfold statsWalk statsOfSlots
    rw [foldl_statsStep f g proj hstep hg (tileSlots navmesh) TileStats.zero
      (by rw [hzero]; norm_num), populatedTiles_eq, hzero]
    unfold addU32 sumU32
    simp
  have hstep : ∀ s header dataSize tile, tile.header = some header →
      tile.dataSize = dataSize →
      statsStep s (some tile)
        = { tileCount := addU32 s.tileCount 1
            nodeCount := addU32 s.nodeCount header.bvNodeCount
            polyCount := addU32 s.polyCount header.polyCount
            vertCount := addU32 s.vertCount header.vertCount
            triCount := addU32 s.triCount header.detailTriCount
            triVertCount := addU32 s.triVertCount header.detailVertCount
            dataSize := addU32 s.dataSize dataSize } := by
    intro s header dataSize tile hh hd
    simp [statsStep, populated, hh, hd]
  have hcount : (statsWalk navmesh).tileCount = (populatedTiles navmesh).length := by
    rw [hfold (fun _ _ => 1) (fun _ => 1) (fun s => s.tileCount)
      (fun s header dataSize tile hh hd => by rw [hstep s header dataSize tile hh hd])
      (fun _ _ _ => rfl) rfl]
    have hle : (populatedTiles navmesh).length ≤ navmesh.maxTiles.toNat := by
      unfold populatedTiles
      exact (List.length_filterMap_le _ _).trans (by simp)
    unfold sumU32
    simp only [List.map_const', List.sum_replicate, nsmul_eq_mul, mul_one]
    omega
  have hfield : ∀ (field : dtMeshHeader → Int) (proj : TileStats → Nat),
      (∀ s header dataSize tile, tile.header = some header → tile.dataSize = dataSize →
        proj (statsStep s (some tile)) = addU32 (proj s) (field header)) →
      proj TileStats.zero = 0 →
      proj (statsWalk navmesh) = sumU32 ((populatedTiles navmesh).map (headerField field)) :=
    fun field proj hs hz =>
      hfold (fun header _ => field header) (headerField field) proj hs
        (fun tile header hh => by simp [headerField, hh]) hz
  have hdata : (statsWalk navmesh).dataSize
      = sumU32 ((populatedTiles navmesh).map fun tile => tile.dataSize) :=
    hfold (fun _ dataSize => dataSize) (fun tile => tile.dataSize) (fun s => s.dataSize)
      (fun s header dataSize tile hh hd => by rw [hstep s header dataSize tile hh hd])
      (fun _ _ _ => rfl) rfl
  have hnode := hfield (fun h => h.bvNodeCount) (fun s => s.nodeCount)
    (fun s header dataSize tile hh hd => by rw [hstep s header dataSize tile hh hd]) rfl
  have hpoly := hfield (fun h => h.polyCount) (fun s => s.polyCount)
    (fun s header dataSize tile hh hd => by rw [hstep s header dataSize tile hh hd]) rfl
  have hvert := hfield (fun h => h.vertCount) (fun s => s.vertCount)
    (fun s header dataSize tile hh hd => by rw [hstep s header dataSize tile hh hd]) rfl
  have htri := hfield (fun h => h.detailTriCount) (fun s => s.triCount)
    (fun s header dataSize tile hh hd => by rw [hstep s header dataSize tile hh hd]) rfl
  have htriv := hfield (fun h => h.detailVertCount) (fun s => s.triVertCount)
    (fun s header dataSize tile hh hd => by rw [hstep s header dataSize tile hh hd]) rfl
  refine ⟨hcount, hnode, hpoly, hvert, htri, htriv, hdata, ?_, ?_⟩
  · simp [HandleMmapStatsCommand, megabytes]
  · intro hnone
    rw [hnone] at hcount hnode hpoly hvert htri htriv hdata
    have hz : statsWalk navmesh = ⟨0, 0, 0, 0, 0, 0, 0⟩ := by
      cases hs : statsWalk navmesh
      rw [hs] at hcount hnode hpoly hvert htri htriv hdata
      simp only [List.length_nil, List.map_nil] at hcount hnode hpoly hvert htri htriv hdata
      simp only [hcount, hnode, hpoly, hvert, htri, htriv, hdata]
      rfl
    refine ⟨hz, ?_⟩
    simp [HandleMmapStatsCommand, hz, messagesWithFormat, megabytes]

/-- C6 on the mesh that holds the sample slots: two populated slots, and a polygon
total that wraps around `2 ^ 32`. -/
theorem stats_totals_witness :
    (navMeshOfSlots sampleSlots).maxTiles ≤ 2147483647 ∧
    (statsWalk (navMeshOfSlots sampleSlots)).tileCount = 2 ∧
    (statsWalk (navMeshOfSlots sampleSlots)).polyCount = 3 :=
  ⟨by decide,
   (stats_totals (navMeshOfSlots sampleSlots) 0 0 (by decide)).1.trans (by decide),
   (stats_totals (navMeshOfSlots sampleSlots) 0 0 (by decide)).2.2.1.trans (by decide)⟩

/-! ## The area test -/

theorem testAreaLoop_eq (engine : PathEngine) (dest : Vector3) (creatures : List WorldUnit) :
    ∀ (calls : List Effect) (paths : Nat), paths < 4294967296 →
      testAreaLoop engine dest creatures (calls, paths)
        = (calls ++ creatures.map (fun itr => Effect.calculatePath itr false false dest false),
           addU32 paths creatures.length) := by
  induction creatures with
  | nil =>
    intro calls paths hp
    simp [testAreaLoop, addU32_zero_of_lt hp]
  | cons itr rest ih =>
    intro calls paths hp
    rw [testAreaLoop, ih _ _ (addU32_lt _ _), addU32_addU32]
    simp [add_comm]

/-- C9: when the creature list of the area test is empty, the only effect is the
`No creatures` message (no path computation, no `Generated` line); when it is not
empty, the effects are the `Found` message, exactly one path computation per creature
in list order, with default flags, toward the player position, and the `Generated`
message, whose path count is the number of creatures (reduced modulo `2 ^ 32`, so the
number itself for fewer than `2 ^ 32` creatures), whatever the path engine returns. -/
theorem testarea_counts_every_creature (env : TestAreaEnv) :
    (env.creaturesInRange 40 = [] →
      HandleMmapTestArea env
        = ([.sysMessage "No creatures in %f yard range." [.flt 40]], true) ∧
      pathComputations (HandleMmapTestArea env).1 = [] ∧
      messagesWithFormat "Generated %i paths in %i ms" (HandleMmapTestArea env).1 = []) ∧
    (env.creaturesInRange 40 ≠ [] →
      HandleMmapTestArea env
        = ([Effect.sysMessage "Found \x7b\x7d Creatures."
              [.usize (env.creaturesInRange 40).length]]
            ++ (env.creaturesInRange 40).map
                (fun itr => Effect.calculatePath itr false false env.position false)
            ++ [.sysMessage "Generated %i paths in %i ms"
                  [.u32 ((env.creaturesInRange 40).length % 4294967296),
                   .u32 (env.getMSTimeDiff env.uStartTime env.uEndTime)]],
           true) ∧
      pathComputations (HandleMmapTestArea env).1
        = (env.creaturesInRange 40).map
            (fun itr => Effect.calculatePath itr false false env.position false) ∧
      (pathComputations (HandleMmapTestArea env).1).length
        = (env.creaturesInRange 40).length ∧
      messagesWithFormat "No creatures in %f yard range." (HandleMmapTestArea env).1 = [] ∧
      ((env.creaturesInRange 40).length < 4294967296 →
        messagesWithFormat "Generated %i paths in %i ms" (HandleMmapTestArea env).1
          = [[.u32 (env.creaturesInRange 40).length,
              .u32 (env.getMSTimeDiff env.uStartTime env.uEndTime)]])) := by
  have hcalls : ∀ l : List WorldUnit,
      pathComputations (l.map
        (fun itr => Effect.calculatePath itr false false env.position false))
        = l.map (fun itr => Effect.calculatePath itr false false env.position false) := by
    intro l
    induction l with
    | nil => rfl
    | cons a l ih => simp [pathComputations]
  have hmsgs : ∀ (fmt : String) (l : List WorldUnit),
      messagesWithFormat fmt (l.map
        (fun itr => Effect.calculatePath itr false false env.position false)) = [] := by
    intro fmt l
    induction l with
    | nil => rfl
    | cons a l ih => simp [messagesWithFormat]
  constructor
  · intro hnil
    have hout : HandleMmapTestArea env
        = ([.sysMessage "No creatures in %f yard range." [.flt 40]], true) := by
      simp [HandleMmapTestArea, hnil]
    rw [hout]
    exact ⟨rfl, rfl, by simp [messagesWithFormat]⟩
  · intro hne
    have hempty : (env.creaturesInRange 40).isEmpty = false := by
      cases h : env.creaturesInRange 40 with
      | nil => exact absurd h hne
      | cons a l => rfl
    have hmod : addU32 0 ((env.creaturesInRange 40).length : Int)
        = (env.creaturesInRange 40).length % 4294967296 := by
      unfold addU32
      omega
    have hout : HandleMmapTestArea env
        = ([Effect.sysMessage "Found \x7b\x7d Creatures."
              [.usize (env.creaturesInRange 40).length]]
            ++ (env.creaturesInRange 40).map
                (fun itr => Effect.calculatePath itr false false env.position false)
            ++ [.sysMessage "Generated %i paths in %i ms"
                  [.u32 ((env.creaturesInRange 40).length % 4294967296),
                   .u32 (env.getMSTimeDiff env.uStartTime env.uEndTime)]],
           true) := by
      simp only [HandleMmapTestArea, hempty, Bool.not_false, if_true]
      rw [testAreaLoop_eq env.engine env.position _ [] 0 (by norm_num), hmod]
      simp
    have hpc : pathComputations (HandleMmapTestArea env).1
        = (env.creaturesInRange 40).map
            (fun itr => Effect.calculatePath itr false false env.position false) := by
      rw [hout]
      show pathComputations (_ ++ _ ++ _) = _
      unfold pathComputations
      rw [List.filter_append, List.filter_append]
      have h := hcalls (env.creaturesInRange 40)
      unfold pathComputations at h
      rw [h]
      simp
    refine ⟨hout, hpc, by rw [hpc, List.length_map], ?_, ?_⟩
    · rw [hout]
      show messagesWithFormat _ (_ ++ _ ++ _) = _
      rw [messagesWithFormat_append, messagesWithFormat_append, hmsgs]
      simp [messagesWithFormat]
    · intro hlt
      rw [hout]
      show messagesWithFormat _ (_ ++ _ ++ _) = _
      rw [messagesWithFormat_append, messagesWithFormat_append, hmsgs,
        Nat.mod_eq_of_lt hlt]
      simp [messagesWithFormat]

/-- C9 on the sample state: two creatures, a path engine that fails for both, and a
`Generated` line that counts two paths. -/
theorem testarea_counts_every_creature_witness :
    sampleTestAreaEnv.creaturesInRange 40 ≠ [] ∧
    (sampleTestAreaEnv.creaturesInRange 40).length < 4294967296 ∧
    messagesWithFormat "Generated %i paths in %i ms" (HandleMmapTestArea sampleTestAreaEnv).1
      = [[.u32 2, .u32 7]] :=
  ⟨by decide, by decide,
   ((testarea_counts_every_creature sampleTestAreaEnv).2 (by decide)).2.2.2.2 (by decide)⟩

end MMaps
